import Mathlib

/-!
Verification of the ResearchHub MCP server (`server.py`) against its
natural-language specification.

The Python code is shallowly embedded: Python strings are `List Char`
(`Str`), JSON-like values are the inductive `Val`, Python dicts are
association lists with Python's insertion-order update semantics
(`setKeyG`), XML element trees are the mutual inductive `XmlTree` /
`XmlForest`, and every outbound HTTP call is an oracle field of the
`Env` structure returning `Except Str _` (a raised Python exception is
the `.error` side, carrying `str(e)`).  All definitions are computable
and evaluate on concrete inputs.
-/

set_option maxRecDepth 4000

namespace ResearchMCP

/-- Python strings, modelled as their character lists. -/
abbrev Str := List Char

/-- Coerce a Lean string literal into the `Str` model. -/
def strL (s : String) : Str := s.data

/-- Python `str.isdigit()` restricted to ASCII digits: true iff the string is
nonempty and every character is a digit (`'0'`–`'9'`). -/
def pyIsDigit (s : Str) : Bool := !s.isEmpty && s.all (fun c => c.isDigit)

/-- JSON-like values passed around by the server: strings, numbers, booleans,
`None`, lists, and dicts (association lists of string keys). -/
inductive Val where
  | str : Str → Val
  | num : Int → Val
  | bool : Bool → Val
  | null : Val
  | vlist : List Val → Val
  | obj : List (Str × Val) → Val

/-- First-match lookup in an association list (Python `d[k]` / `d.get(k)`;
the dicts built by this development never hold duplicate keys). -/
def lookupKeyG {κ α : Type} [DecidableEq κ] (d : List (κ × α)) (k : κ) : Option α :=
  match d with
  | [] => none
  | (k', v) :: rest => if k' = k then some v else lookupKeyG rest k

/-- Python dict assignment `d[k] = v`: replace in place if the key exists,
otherwise append at the end (insertion order preserved). -/
def setKeyG {κ α : Type} [DecidableEq κ] (d : List (κ × α)) (k : κ) (v : α) : List (κ × α) :=
  match d with
  | [] => [(k, v)]
  | (k', v') :: rest => if k' = k then (k, v) :: rest else (k', v') :: setKeyG rest k v

/-- Python dict spread `{**d, **e}`: start from `d` and assign every entry of
`e` in order. -/
def dictUnion (d e : List (Str × Val)) : List (Str × Val) :=
  e.foldl (fun acc p => setKeyG acc p.1 p.2) d

/-! ## Identifier classifier

Embeds the auto-detection branch of `_get_paper_by_identifier_impl`
(`server.py` lines 671–680).  The source returns the provider-native type as
the literal `"s2"`. -/

/-- The identifier classifier of `_get_paper_by_identifier_impl`: `doi` if the
string starts with `"10."` and contains `"/"`; else `pmid` if it is all digits
with length ≥ 7; else `arxiv` if it contains `"."` and at least one digit;
else the provider-native type `"s2"`. -/
def classifyIdentifier (identifier : Str) : Str :=
  if strL "10." <+: identifier ∧ '/' ∈ identifier then strL "doi"
  else if pyIsDigit identifier = true ∧ 7 ≤ identifier.length then strL "pmid"
  else if '.' ∈ identifier ∧ identifier.any (fun c => c.isDigit) = true then strL "arxiv"
  else strL "s2"

/-! ## XML element trees

Model of the `xml.etree.ElementTree` values walked by `_pubmed_fetch_impl`.
An element has a tag, attributes, optional text, and children; the forest type
is a specialised list so that recursion over the tree is structural.  The
`find`/`findall` path expressions used by the source (`.//Tag`, `.//A/B`,
direct child `Tag`) are embedded below; `.//` enumerates proper descendants in
document (pre-)order and `find` returns the first match of `findall`. -/

mutual

inductive XmlTree where
  | elem (tag : Str) (attrs : List (Str × Str)) (text : Option Str) (children : XmlForest)

inductive XmlForest where
  | nil : XmlForest
  | cons (head : XmlTree) (tail : XmlForest) : XmlForest

end

def tagOf : XmlTree → Str
  | .elem t _ _ _ => t

def attrsOf : XmlTree → List (Str × Str)
  | .elem _ a _ _ => a

def textOf : XmlTree → Option Str
  | .elem _ _ s _ => s

def forestOf : XmlTree → XmlForest
  | .elem _ _ _ c => c

/-- View an `XmlForest` as a plain list of elements. -/
def forestList : XmlForest → List XmlTree
  | .nil => []
  | .cons c rest => c :: forestList rest

/-- The direct children of an element. -/
def childrenOf (x : XmlTree) : List XmlTree := forestList (forestOf x)

mutual

/-- All proper descendants of an element, in document (pre-)order. -/
def subElems : XmlTree → List XmlTree
  | .elem _ _ _ children => subForest children

def subForest : XmlForest → List XmlTree
  | .nil => []
  | .cons c rest => c :: (subElems c ++ subForest rest)

end

/-- `elem.findall(".//tag")`: every descendant with the given tag. -/
def findallDesc (x : XmlTree) (tag : Str) : List XmlTree :=
  (subElems x).filter (fun c => tagOf c = tag)

/-- `elem.find(".//tag")`: the first descendant with the given tag. -/
def findDesc (x : XmlTree) (tag : Str) : Option XmlTree :=
  (findallDesc x tag).head?

/-- All direct children with the given tag. -/
def findChildAll (x : XmlTree) (tag : Str) : List XmlTree :=
  (childrenOf x).filter (fun c => tagOf c = tag)

/-- `elem.find("tag")`: the first direct child with the given tag. -/
def findChild (x : XmlTree) (tag : Str) : Option XmlTree :=
  (findChildAll x tag).head?

/-- `elem.find(".//t1/t2")`: the first `t2` child of a `t1` descendant. -/
def findDescChild (x : XmlTree) (t1 t2 : Str) : Option XmlTree :=
  ((findallDesc x t1).flatMap (fun a => findChildAll a t2)).head?

/-- `elem.get(attr)`: attribute lookup returning `None` when absent. -/
def getAttr (x : XmlTree) (k : Str) : Option Str := lookupKeyG (attrsOf x) k

/-- Python truthiness test `e is not None and e.text` on an optional element:
returns the text when the element exists and its text is a nonempty string. -/
def truthyText (e? : Option XmlTree) : Option Str :=
  match e? with
  | some e =>
    match textOf e with
    | some t => if t = [] then none else some t
    | none => none
  | none => none

/-! ## PubMed detail fetch (`_pubmed_fetch_impl`, `server.py` lines 59–135)

The HTTP GET + `raise_for_status` + `ET.fromstring` round trip is an oracle
(`Env.efetch` below) that either fails or yields the parsed XML root; the
per-article field extraction is embedded concretely. -/

/-- One entry of the dict built for each `PubmedArticle` element
(`server.py` lines 90–131).  `pmid` and `title` are `Option` because
`elem.text` can be Python `None`; every other field defaults to the empty
string / empty list. -/
structure PubmedArticle where
  pmid : Option Str
  title : Option Str
  abstract : Str
  authors : List Str
  journal : Str
  year : Str
  doi : Str
  keywords : List Str
deriving DecidableEq

/-- Parse one `PubmedArticle` element into its record, keyed by the text of
its first `PMID` descendant; `none` when there is no `PMID` element (the
source `continue`s past such articles). -/
def parseArticle (a : XmlTree) : Option (Option Str × PubmedArticle) :=
  match findDesc a (strL "PMID") with
  | none => none
  | some pmidElem =>
    let titleElem := findDesc a (strL "ArticleTitle")
    some (textOf pmidElem,
      { pmid := textOf pmidElem
        title := match titleElem with
          | some e => textOf e
          | none => some (strL "")
        abstract := match truthyText (findDescChild a (strL "Abstract") (strL "AbstractText")) with
          | some t => t
          | none => strL ""
        authors := (findallDesc a (strL "Author")).filterMap (fun au =>
          match truthyText (findChild au (strL "LastName")),
                truthyText (findChild au (strL "ForeName")) with
          | some lt, some ft => some (ft ++ strL " " ++ lt)
          | _, _ => none)
        journal := match truthyText (findDescChild a (strL "Journal") (strL "Title")) with
          | some t => t
          | none => strL ""
        year := match truthyText (findDescChild a (strL "PubDate") (strL "Year")) with
          | some t => t
          | none => strL ""
        doi := (findallDesc a (strL "ArticleId")).foldl (fun acc e =>
          if getAttr e (strL "IdType") = some (strL "doi") then
            match truthyText (some e) with
            | some t => t
            | none => acc
          else acc) (strL "")
        keywords := (findallDesc a (strL "Keyword")).filterMap (fun e => truthyText (some e)) })

/-- Walk the efetch XML root: one dict entry per `PubmedArticle` descendant
holding a `PMID`, keyed by that PMID's text (Python dict update semantics). -/
def parseEfetch (root : XmlTree) : List (Option Str × PubmedArticle) :=
  (findallDesc root (strL "PubmedArticle")).foldl (fun acc a =>
    match parseArticle a with
    | some (pmid, rec) => setKeyG acc pmid rec
    | none => acc) []

/-! ## HTTP oracles -/

/-- The outbound HTTP calls of the server, as oracles.  Each models one
network request (plus, for XML endpoints, the body parse): the `.error` side
is a raised Python exception carrying `str(e)`.
`esearch` is the PubMed id search of `_pubmed_search_impl`; `efetch` takes
the comma-joined id string of `_pubmed_fetch_impl` and yields the parsed XML
root; `s2Search` is `_semantic_scholar_search_impl` (enhanced paper dicts);
`s2PaperDetails` is `_semantic_scholar_paper_details_impl` (enhanced dict);
`arxivSearch` is `_arxiv_search_impl` (paper dicts);
`crossrefWorksSearch` is `_crossref_works_search_impl` (its
`{total_results, items}` dict); `crossrefDoiLookup` is
`_crossref_doi_lookup_impl` (the work record). -/
structure Env where
  esearch : Str → Nat → Except Str (List Str)
  efetch : Str → Except Str XmlTree
  s2Search : Str → Nat → Except Str (List (List (Str × Val)))
  s2PaperDetails : Str → Except Str (List (Str × Val))
  arxivSearch : Str → Nat → Except Str (List (List (Str × Val)))
  crossrefWorksSearch : Str → Nat → Except Str (List (Str × Val))
  crossrefDoiLookup : Str → Except Str (List (Str × Val))

/-- `_pubmed_fetch_impl` (`server.py` lines 59–135): empty input short-circuits
to `{}`; otherwise one single batched efetch request is issued for the
comma-joined first 10 PMIDs (`pmids[:10]`) and its XML body is parsed.  No
further batches are ever issued. -/
def pubmedFetchImpl (env : Env) (pmids : List Str) : Except Str (List (Option Str × PubmedArticle)) :=
  if pmids.isEmpty then .ok []
  else
    match env.efetch (List.intercalate (strL ",") (pmids.take 10)) with
    | .error e => .error e
    | .ok root => .ok (parseEfetch root)

/-! ## PubMed search and summaries -/

/-- Python `None`-or-string as a `Val`. -/
def optStrVal : Option Str → Val
  | some s => Val.str s
  | none => Val.null

/-- The derived `author_list` display string
(`server.py` line 49, line 147, and — on the `"name"` fields of the author
objects — lines 236 and 272): the first 3 names joined by `", "`, with
`" et al."` appended iff there are more than 3 authors. -/
def authorListDisplay (authors : List Str) : Str :=
  List.intercalate (strL ", ") (authors.take 3) ++
    (if 3 < authors.length then strL " et al." else strL "")

/-- One enriched entry of the `articles_list` built by `_pubmed_search_impl`
(`server.py` lines 45–55), in the source's key order. -/
def searchRecord (pmid : Str) (a : PubmedArticle) : List (Str × Val) :=
  [(strL "pmid", Val.str pmid),
   (strL "title", optStrVal a.title),
   (strL "authors", Val.vlist (a.authors.map Val.str)),
   (strL "author_list", Val.str (authorListDisplay a.authors)),
   (strL "journal", Val.str a.journal),
   (strL "year", Val.str a.year),
   (strL "doi", Val.str a.doi),
   (strL "abstract", Val.str a.abstract),
   (strL "keywords", Val.vlist (a.keywords.map Val.str))]

/-- The `article_data` dict built by `_pubmed_fetch_impl` for one article
(`server.py` lines 90–99), in the source's key order; this is what the
resolver's `pmid` branch spreads behind `"source": "pubmed"`. -/
def articleToDict (a : PubmedArticle) : List (Str × Val) :=
  [(strL "pmid", optStrVal a.pmid),
   (strL "title", optStrVal a.title),
   (strL "abstract", Val.str a.abstract),
   (strL "authors", Val.vlist (a.authors.map Val.str)),
   (strL "journal", Val.str a.journal),
   (strL "year", Val.str a.year),
   (strL "doi", Val.str a.doi),
   (strL "keywords", Val.vlist (a.keywords.map Val.str))]

/-- `_pubmed_search_impl` returns either the bare PMID list (when
`return_details` is false or no PMIDs matched) or the enriched record list. -/
inductive PubmedSearchOut where
  | ids : List Str → PubmedSearchOut
  | records : List (List (Str × Val)) → PubmedSearchOut

/-- `_pubmed_search_impl` (`server.py` lines 23–57): esearch for PMIDs, then —
when details are requested and matches exist — a batched detail fetch;
PMIDs missing from the fetched dict are silently dropped from the list, which
follows the esearch order. -/
def pubmedSearchImpl (env : Env) (query : Str) (maxResults : Nat) (returnDetails : Bool) :
    Except Str PubmedSearchOut :=
  match env.esearch query maxResults with
  | .error e => .error e
  | .ok pmids =>
    if !returnDetails || pmids.isEmpty then .ok (.ids pmids)
    else
      match pubmedFetchImpl env pmids with
      | .error e => .error e
      | .ok articlesDict =>
        .ok (.records (pmids.filterMap (fun pmid =>
          match lookupKeyG articlesDict (some pmid) with
          | some article => some (searchRecord pmid article)
          | none => none)))

/-- The abstract truncation of `_pubmed_summary_impl` (`server.py` line 149):
first 200 characters plus `"..."` when the abstract exceeds 200 characters,
otherwise the abstract unchanged. -/
def abstractSnippet (abstract : Str) : Str :=
  if 200 < abstract.length then abstract.take 200 ++ strL "..." else abstract

/-- One condensed record of `_pubmed_summary_impl` (`server.py` lines 144–150),
in the source's key order. -/
def summaryRecord (pmid : Option Str) (a : PubmedArticle) : List (Str × Val) :=
  [(strL "pmid", optStrVal pmid),
   (strL "title", optStrVal a.title),
   (strL "authors", Val.str (authorListDisplay a.authors)),
   (strL "journal", Val.str (a.journal ++ strL " (" ++ a.year ++ strL ")")),
   (strL "abstract_snippet", Val.str (abstractSnippet a.abstract))]

/-- `_pubmed_summary_impl` (`server.py` lines 137–153): detail fetch, then one
condensed record per fetched article (dict iteration order = insertion order). -/
def pubmedSummaryImpl (env : Env) (pmids : List Str) :
    Except Str (List (List (Str × Val))) :=
  match pubmedFetchImpl env pmids with
  | .error e => .error e
  | .ok articles => .ok (articles.map (fun pa => summaryRecord pa.1 pa.2))

/-! ## Semantic Scholar rate limiter (`server.py` lines 190–198)

`_respect_rate_limit` is embedded over an idealised wall clock: `now` is the
value of `time.time()` on entry, `lastCall` the module-global `_last_call`,
`time.sleep(wait)` advances the clock by exactly `wait`, and the returned pair
is (release time of the call, new `_last_call` — read from the clock after the
sleep).  `RATE_LIMIT = 1` as in the source. -/

def RATE_LIMIT : ℚ := 1

/-- `_respect_rate_limit`: sleep for the remainder of the `1 / RATE_LIMIT`
interval since `lastCall` when that remainder is positive, then record the
post-sleep time as the new `_last_call`. -/
def respectRateLimit (now lastCall : ℚ) : ℚ × ℚ :=
  if 0 < 1 / RATE_LIMIT - (now - lastCall) then
    (now + (1 / RATE_LIMIT - (now - lastCall)), now + (1 / RATE_LIMIT - (now - lastCall)))
  else (now, now)

/-! ## Cross-provider resolver
(`_get_paper_by_identifier_impl`, `server.py` lines 669–723) -/

/-- The `id_type` actually dispatched on: the supplied one, or the
classifier's answer when none is supplied. -/
def resolveIdType (identifier : Str) (idType? : Option Str) : Str :=
  match idType? with
  | some t => t
  | none => classifyIdentifier identifier

/-- The body of the resolver's `try:` block (`server.py` lines 682–720): the
dispatch on `id_type`, every raised exception surfacing as `.error`.  The DOI
branch's inner bare `except:` around the secondary Semantic Scholar lookup is
the inner `match` whose `.error` case falls back to the spread CrossRef
record. -/
def dispatch (env : Env) (identifier : Str) (idType : Str) : Except Str (List (Str × Val)) :=
  if idType = strL "doi" then
    match env.crossrefDoiLookup identifier with
    | .error e => .error e
    | .ok crossrefData =>
      match env.s2PaperDetails identifier with
      | .ok s2Data =>
        .ok [(strL "source", Val.str (strL "crossref+semantic_scholar")),
             (strL "crossref", Val.obj crossrefData),
             (strL "semantic_scholar", Val.obj s2Data)]
      | .error _ => .ok (dictUnion [(strL "source", Val.str (strL "crossref"))] crossrefData)
  else if idType = strL "pmid" then
    match pubmedFetchImpl env [identifier] with
    | .error e => .error e
    | .ok articles =>
      match lookupKeyG articles (some identifier) with
      | some article =>
        .ok (dictUnion [(strL "source", Val.str (strL "pubmed"))] (articleToDict article))
      | none => .error (strL "PMID " ++ identifier ++ strL " not found")
  else if idType = strL "arxiv" then
    match env.arxivSearch (strL "id:" ++ identifier) 1 with
    | .error e => .error e
    | .ok papers =>
      match papers with
      | p :: _ => .ok (dictUnion [(strL "source", Val.str (strL "arxiv"))] p)
      | [] => .error (strL "ArXiv paper " ++ identifier ++ strL " not found")
  else if idType = strL "s2" then
    match env.s2PaperDetails identifier with
    | .error e => .error e
    | .ok paper => .ok (dictUnion [(strL "source", Val.str (strL "semantic_scholar"))] paper)
  else
    .error (strL "Unknown identifier type: " ++ idType)

/-- The structured failure object `{"error": str(e), "identifier": identifier,
"id_type": id_type}` built by the resolver's `except Exception` handler. -/
def errorObj (e identifier idType : Str) : List (Str × Val) :=
  [(strL "error", Val.str e),
   (strL "identifier", Val.str identifier),
   (strL "id_type", Val.str idType)]

/-- `_get_paper_by_identifier_impl`: classify if needed, dispatch inside
`try:`, and convert any failure into the structured error object. -/
def getPaperByIdentifierImpl (env : Env) (identifier : Str) (idType? : Option Str) :
    List (Str × Val) :=
  match dispatch env identifier (resolveIdType identifier idType?) with
  | .ok r => r
  | .error e => errorObj e identifier (resolveIdType identifier idType?)

/-! ## Multi-database fan-out
(`_multi_database_search_impl`, `server.py` lines 619–652) -/

/-- Inject a `_pubmed_search_impl` return value into `Val`. -/
def searchOutVal : PubmedSearchOut → Val
  | .ids l => Val.vlist (l.map Val.str)
  | .records rs => Val.vlist (rs.map Val.obj)

/-- Inject a list of record dicts into `Val`. -/
def dictListVal (rs : List (List (Str × Val))) : Val :=
  Val.vlist (rs.map Val.obj)

/-- `crossref_result.get("items", [])` (`server.py` line 648). -/
def crossrefItems (d : List (Str × Val)) : Val :=
  (lookupKeyG d (strL "items")).getD (Val.vlist [])

/-- The default provider set of `_multi_database_search_impl`
(`server.py` line 622). -/
def defaultDatabases : List Str :=
  [strL "pubmed", strL "semantic_scholar", strL "arxiv", strL "crossref"]

/-- The provider call issued by `_multi_database_search_impl` for each
supported provider name (`server.py` lines 629, 635, 641, 647–648). -/
def providerCall (env : Env) (query : Str) (maxPerDb : Nat) (name : Str) : Except Str Val :=
  if name = strL "pubmed" then (pubmedSearchImpl env query maxPerDb true).map searchOutVal
  else if name = strL "semantic_scholar" then (env.s2Search query maxPerDb).map dictListVal
  else if name = strL "arxiv" then (env.arxivSearch query maxPerDb).map dictListVal
  else (env.crossrefWorksSearch query maxPerDb).map crossrefItems

/-- One `if name in databases: try ... except` block of the fan-out: when the
provider is requested, store its value under `name` on success or the message
under `name + "_error"` on failure; otherwise leave the results untouched. -/
def fanStage (r : List (Str × Val)) (requested : Bool) (name : Str) (call : Except Str Val) :
    List (Str × Val) :=
  if requested then
    match call with
    | .ok v => setKeyG r name v
    | .error e => setKeyG r (name ++ strL "_error") (Val.str e)
  else r

/-- `_multi_database_search_impl`: default the provider list, then run the
four isolated provider blocks in the source's order. -/
def multiDatabaseSearchImpl (env : Env) (query : Str) (databases : Option (List Str))
    (maxPerDb : Nat) : List (Str × Val) :=
  let dbs := databases.getD defaultDatabases
  let r1 := fanStage [] (dbs.contains (strL "pubmed")) (strL "pubmed")
      (providerCall env query maxPerDb (strL "pubmed"))
  let r2 := fanStage r1 (dbs.contains (strL "semantic_scholar")) (strL "semantic_scholar")
      (providerCall env query maxPerDb (strL "semantic_scholar"))
  let r3 := fanStage r2 (dbs.contains (strL "arxiv")) (strL "arxiv")
      (providerCall env query maxPerDb (strL "arxiv"))
  fanStage r3 (dbs.contains (strL "crossref")) (strL "crossref")
      (providerCall env query maxPerDb (strL "crossref"))

/-! ## Concrete data used by the witnesses -/

/-- Build an `XmlForest` from a list of elements. -/
def forestOfList : List XmlTree → XmlForest
  | [] => .nil
  | t :: ts => .cons t (forestOfList ts)

/-- Convenience constructor for concrete XML elements. -/
def xmlNode (tag : String) (attrs : List (String × String)) (text : Option String)
    (children : List XmlTree) : XmlTree :=
  .elem (strL tag) (attrs.map (fun p => (strL p.1, strL p.2))) (text.map strL)
    (forestOfList children)

/-- A fan-out environment whose Semantic Scholar search times out and whose
arXiv search succeeds with zero matches. -/
def cEnvC3 : Env :=
  Env.mk (fun _ _ => .ok []) (fun _ => .error (strL "nope"))
    (fun _ _ => .error (strL "timeout")) (fun _ => .error (strL "nope"))
    (fun _ _ => .ok []) (fun _ _ => .ok [(strL "items", Val.vlist [])])
    (fun _ => .error (strL "nope"))

/-- A resolver environment where CrossRef succeeds and Semantic Scholar is
down. -/
def cEnvC4 : Env :=
  Env.mk (fun _ _ => .error (strL "nope")) (fun _ => .error (strL "nope"))
    (fun _ _ => .error (strL "nope")) (fun _ => .error (strL "down"))
    (fun _ _ => .error (strL "nope")) (fun _ _ => .error (strL "nope"))
    (fun _ => .ok [(strL "title", Val.str (strL "T"))])

/-- A resolver environment where both CrossRef and Semantic Scholar succeed. -/
def cEnvC5 : Env :=
  Env.mk (fun _ _ => .error (strL "nope")) (fun _ => .error (strL "nope"))
    (fun _ _ => .error (strL "nope")) (fun _ => .ok [(strL "title", Val.str (strL "S"))])
    (fun _ _ => .error (strL "nope")) (fun _ _ => .error (strL "nope"))
    (fun _ => .ok [(strL "title", Val.str (strL "T"))])

/-- An efetch XML body whose single article has one author whose displayed
name is the string `"Ann et al."`. -/
def cRoot6 : XmlTree :=
  xmlNode "PubmedArticleSet" [] none
    [xmlNode "PubmedArticle" [] none
      [xmlNode "PMID" [] (some "1") [],
       xmlNode "ArticleTitle" [] (some "T") [],
       xmlNode "Author" [] none
         [xmlNode "LastName" [] (some "et al.") [],
          xmlNode "ForeName" [] (some "Ann") []]]]

/-- The parsed record of the single article of `cRoot6`. -/
def cArticle6 : PubmedArticle :=
  ⟨some (strL "1"), some (strL "T"), strL "", [strL "Ann et al."],
   strL "", strL "", strL "", []⟩

/-- Environment serving `cRoot6` for every efetch request. -/
def cEnvC6 : Env :=
  Env.mk (fun _ _ => .ok [strL "1"]) (fun _ => .ok cRoot6)
    (fun _ _ => .error (strL "nope")) (fun _ => .error (strL "nope"))
    (fun _ _ => .error (strL "nope")) (fun _ _ => .error (strL "nope"))
    (fun _ => .error (strL "nope"))

/-- An efetch XML body whose single article has a short abstract. -/
def cRoot7 : XmlTree :=
  xmlNode "PubmedArticleSet" [] none
    [xmlNode "PubmedArticle" [] none
      [xmlNode "PMID" [] (some "1") [],
       xmlNode "Abstract" [] none
         [xmlNode "AbstractText" [] (some "Short abstract.") []]]]

/-- The parsed record of the single article of `cRoot7`. -/
def cArticle7 : PubmedArticle :=
  ⟨some (strL "1"), some (strL ""), strL "Short abstract.", [],
   strL "", strL "", strL "", []⟩

/-- Environment serving `cRoot7` for every efetch request. -/
def cEnvC7 : Env :=
  Env.mk (fun _ _ => .ok [strL "1"]) (fun _ => .ok cRoot7)
    (fun _ _ => .error (strL "nope")) (fun _ => .error (strL "nope"))
    (fun _ _ => .error (strL "nope")) (fun _ _ => .error (strL "nope"))
    (fun _ => .error (strL "nope"))

/-- A `PubmedArticle` XML element with a PMID and a title but no
`Abstract/AbstractText` element. -/
def cTree8 : XmlTree :=
  xmlNode "PubmedArticle" [] none
    [xmlNode "PMID" [] (some "7") [],
     xmlNode "ArticleTitle" [] (some "T") []]

/-- The parsed record of `cTree8`. -/
def cRec8 : PubmedArticle :=
  ⟨some (strL "7"), some (strL "T"), strL "", [], strL "", strL "", strL "", []⟩

/-- Twelve PMIDs, more than one efetch batch's worth. -/
def cIds10 : List Str :=
  [strL "1", strL "2", strL "3", strL "4", strL "5", strL "6",
   strL "7", strL "8", strL "9", strL "10", strL "11", strL "12"]

/-- An efetch XML body holding only the article for PMID `"1"`. -/
def cRoot10 : XmlTree :=
  xmlNode "PubmedArticleSet" [] none
    [xmlNode "PubmedArticle" [] none [xmlNode "PMID" [] (some "1") []]]

/-- The parsed record of the single article of `cRoot10`. -/
def cArticle10 : PubmedArticle :=
  ⟨some (strL "1"), some (strL ""), strL "", [], strL "", strL "", strL "", []⟩

/-- Environment whose esearch matches twelve PMIDs and whose efetch serves
`cRoot10`. -/
def cEnv10 : Env :=
  Env.mk (fun _ _ => .ok cIds10) (fun _ => .ok cRoot10)
    (fun _ _ => .error (strL "nope")) (fun _ => .error (strL "nope"))
    (fun _ _ => .error (strL "nope")) (fun _ _ => .error (strL "nope"))
    (fun _ => .error (strL "nope"))

/-- Environment for the C2 witness: every outbound call fails. -/
def cEnvC2 : Env :=
  Env.mk (fun _ _ => .error (strL "boom")) (fun _ => .error (strL "boom"))
    (fun _ _ => .error (strL "boom")) (fun _ => .error (strL "boom"))
    (fun _ _ => .error (strL "boom")) (fun _ _ => .error (strL "boom"))
    (fun _ => .error (strL "boom"))

/-! ## Helper lemmas -/

theorem lookup_setKeyG_self {κ α : Type} [DecidableEq κ] (d : List (κ × α)) (k : κ) (v : α) :
    lookupKeyG (setKeyG d k v) k = some v := by
  induction d with
  | nil => simp [setKeyG, lookupKeyG]
  | cons p rest ih =>
    obtain ⟨k', v'⟩ := p
    by_cases h : k' = k
    · simp [setKeyG, lookupKeyG, h]
    · simp [setKeyG, lookupKeyG, h, ih]

theorem lookup_setKeyG_ne {κ α : Type} [DecidableEq κ] (d : List (κ × α)) (k' k : κ) (v : α)
    (h : k' ≠ k) : lookupKeyG (setKeyG d k' v) k = lookupKeyG d k := by
  induction d with
  | nil => simp [setKeyG, lookupKeyG, h]
  | cons p rest ih =>
    obtain ⟨k'', v''⟩ := p
    by_cases h2 : k'' = k'
    · subst h2
      simp [setKeyG, lookupKeyG, h]
    · simp [setKeyG, h2]
      by_cases h3 : k'' = k
      · simp [lookupKeyG, h3]
      · simp [lookupKeyG, h3, ih]

theorem lookup_dictUnion_of_notin (d e : List (Str × Val)) (k : Str)
    (h : lookupKeyG e k = none) : lookupKeyG (dictUnion d e) k = lookupKeyG d k := by
  induction e generalizing d with
  | nil => rfl
  | cons p rest ih =>
    obtain ⟨k', v'⟩ := p
    by_cases hk : k' = k
    · simp [lookupKeyG, hk] at h
    · simp only [lookupKeyG, hk, if_false] at h
      show lookupKeyG (dictUnion (setKeyG d k' v') rest) k = _
      rw [ih _ h, lookup_setKeyG_ne _ _ _ _ hk]

theorem lookupKeyG_mem_keys {κ α : Type} [DecidableEq κ] (d : List (κ × α)) (k : κ) (v : α)
    (h : lookupKeyG d k = some v) : k ∈ d.map Prod.fst := by
  induction d with
  | nil => simp [lookupKeyG] at h
  | cons p rest ih =>
    obtain ⟨k', v'⟩ := p
    by_cases hk : k' = k
    · simp [hk]
    · simp only [lookupKeyG, hk, if_false] at h
      simp [ih h]

theorem pyIsDigit_mem {s : Str} (h : pyIsDigit s = true) {c : Char} (hc : c ∈ s) :
    c.isDigit = true := by
  unfold pyIsDigit at h
  rw [Bool.and_eq_true, List.all_eq_true] at h
  exact h.2 c hc

theorem lookup_fanStage_other (r : List (Str × Val)) (requested : Bool) (name : Str)
    (call : Except Str Val) (k : Str) (h1 : name ≠ k) (h2 : name ++ strL "_error" ≠ k) :
    lookupKeyG (fanStage r requested name call) k = lookupKeyG r k := by
  unfold fanStage
  split
  · cases call with
    | ok v => exact lookup_setKeyG_ne _ _ _ _ h1
    | error e => exact lookup_setKeyG_ne _ _ _ _ h2
  · rfl


theorem append_error_ne (name : Str) : name ++ strL "_error" ≠ name := by
  intro h
  have := congrArg List.length h
  simp [strL] at this

theorem lookup_fanStage_active_ok (r : List (Str × Val)) (name : Str)
    (call : Except Str Val) (v : Val) (hcall : call = .ok v) :
    lookupKeyG (fanStage r true name call) name = some v ∧
    lookupKeyG (fanStage r true name call) (name ++ strL "_error") =
      lookupKeyG r (name ++ strL "_error") := by
  unfold fanStage
  rw [if_pos rfl, hcall]
  exact ⟨lookup_setKeyG_self _ _ _, lookup_setKeyG_ne _ _ _ _ (append_error_ne name).symm⟩

theorem lookup_fanStage_active_error (r : List (Str × Val)) (name : Str)
    (call : Except Str Val) (e : Str) (hcall : call = .error e) :
    lookupKeyG (fanStage r true name call) (name ++ strL "_error") = some (Val.str e) ∧
    lookupKeyG (fanStage r true name call) name = lookupKeyG r name := by
  unfold fanStage
  rw [if_pos rfl, hcall]
  exact ⟨lookup_setKeyG_self _ _ _, lookup_setKeyG_ne _ _ _ _ (append_error_ne name)⟩

/-! ## Claim theorems -/

/-- C1: the identifier classifier used by `get_paper_by_identifier` when
`id_type` is not supplied applies the fixed priority order with first match
winning — `doi` when the string starts with `"10."` and contains `"/"`, else
`pmid` when it is all digits of length ≥ 7, else `arxiv` when it contains
`"."` and a digit, else the provider-native type (`"s2"`).  In particular
every string matching `^10\.[^/]+/.+$` classifies as `doi`, every all-digit
string of length ≥ 7 classifies as `pmid`, and no all-digit string shorter
than 7 characters classifies as `pmid`. -/
theorem classify_identifier_priority :
    (∀ a b : Str, a ≠ [] → '/' ∉ a → b ≠ [] →
       classifyIdentifier (strL "10." ++ a ++ '/' :: b) = strL "doi") ∧
    (∀ s : Str, strL "10." <+: s → '/' ∈ s → classifyIdentifier s = strL "doi") ∧
    (∀ s : Str, ¬(strL "10." <+: s ∧ '/' ∈ s) → pyIsDigit s = true → 7 ≤ s.length →
       classifyIdentifier s = strL "pmid") ∧
    (∀ s : Str, ¬(strL "10." <+: s ∧ '/' ∈ s) → ¬(pyIsDigit s = true ∧ 7 ≤ s.length) →
       '.' ∈ s → s.any (fun c => c.isDigit) = true → classifyIdentifier s = strL "arxiv") ∧
    (∀ s : Str, ¬(strL "10." <+: s ∧ '/' ∈ s) → ¬(pyIsDigit s = true ∧ 7 ≤ s.length) →
       ¬('.' ∈ s ∧ s.any (fun c => c.isDigit) = true) → classifyIdentifier s = strL "s2") ∧
    (∀ s : Str, pyIsDigit s = true → 7 ≤ s.length → classifyIdentifier s = strL "pmid") ∧
    (∀ s : Str, pyIsDigit s = true → s.length < 7 → classifyIdentifier s ≠ strL "pmid") := by
  have hdoi : ∀ s : Str, strL "10." <+: s → '/' ∈ s → classifyIdentifier s = strL "doi" := by
    intro s h1 h2
    unfold classifyIdentifier
    rw [if_pos ⟨h1, h2⟩]
  have hpmid : ∀ s : Str, ¬(strL "10." <+: s ∧ '/' ∈ s) → pyIsDigit s = true →
      7 ≤ s.length → classifyIdentifier s = strL "pmid" := by
    intro s h1 h2 h3
    unfold classifyIdentifier
    rw [if_neg h1, if_pos ⟨h2, h3⟩]
  have hdigit_not_doi : ∀ s : Str, pyIsDigit s = true → ¬(strL "10." <+: s ∧ '/' ∈ s) := by
    intro s hd h
    exact absurd (pyIsDigit_mem hd h.2) (by decide)
  refine ⟨?_, hdoi, hpmid, ?_, ?_, ?_, ?_⟩
  · intro a b _ _ _
    refine hdoi _ (List.prefix_append _ _) ?_
    simp [List.mem_append]
  · intro s h1 h2 h3 h4
    unfold classifyIdentifier
    rw [if_neg h1, if_neg h2, if_pos ⟨h3, h4⟩]
  · intro s h1 h2 h3
    unfold classifyIdentifier
    rw [if_neg h1, if_neg h2, if_neg h3]
  · intro s h2 h3
    exact hpmid s (hdigit_not_doi s h2) h2 h3
  · intro s hd hlen
    have h1 := hdigit_not_doi s hd
    have h2 : ¬(pyIsDigit s = true ∧ 7 ≤ s.length) := by
      rintro ⟨_, h7⟩
      omega
    have h3 : ¬('.' ∈ s ∧ s.any (fun c => c.isDigit) = true) := by
      rintro ⟨hmem, _⟩
      exact absurd (pyIsDigit_mem hd hmem) (by decide)
    unfold classifyIdentifier
    rw [if_neg h1, if_neg h2, if_neg h3]
    decide

/-- Witness for C1: `"10.1038/s41586-020-2649-2"` (matching the DOI regex with
`[^/]+ = "1038"`) classifies as `doi`; the 8-digit string `"34535245"`
classifies as `pmid`; the 6-digit string `"123456"` does not classify as
`pmid`. -/
theorem classify_identifier_priority_witness :
    classifyIdentifier (strL "10.1038/s41586-020-2649-2") = strL "doi" ∧
    classifyIdentifier (strL "34535245") = strL "pmid" ∧
    classifyIdentifier (strL "123456") ≠ strL "pmid" := by
  refine ⟨?_, ?_, ?_⟩
  · exact classify_identifier_priority.1 (strL "1038") (strL "s41586-020-2649-2")
      (by decide) (by decide) (by decide)
  · exact classify_identifier_priority.2.2.2.2.2.1 (strL "34535245") (by decide) (by decide)
  · exact classify_identifier_priority.2.2.2.2.2.2 (strL "123456") (by decide) (by decide)

/-- C2: for every identifier and every `id_type` (supplied or inferred,
including an unrecognized one), `get_paper_by_identifier` never propagates a
dispatch failure: the call returns the dispatch's result record when it
succeeds, and the structured object
`{error: <message>, identifier, id_type}` when it fails for any reason —
in particular for an unrecognized `id_type`, with the
`"Unknown identifier type"` message. -/
theorem get_paper_by_identifier_no_exception (env : Env) (identifier : Str)
    (idType? : Option Str) :
    ((∃ r, dispatch env identifier (resolveIdType identifier idType?) = .ok r ∧
        getPaperByIdentifierImpl env identifier idType? = r) ∨
     (∃ e, dispatch env identifier (resolveIdType identifier idType?) = .error e ∧
        getPaperByIdentifierImpl env identifier idType? =
          errorObj e identifier (resolveIdType identifier idType?))) ∧
    (resolveIdType identifier idType? ∉ [strL "doi", strL "pmid", strL "arxiv", strL "s2"] →
      getPaperByIdentifierImpl env identifier idType? =
        errorObj (strL "Unknown identifier type: " ++ resolveIdType identifier idType?)
          identifier (resolveIdType identifier idType?)) := by
  constructor
  · cases h : dispatch env identifier (resolveIdType identifier idType?) with
    | ok r =>
      refine Or.inl ⟨r, rfl, ?_⟩
      unfold getPaperByIdentifierImpl
      rw [h]
    | error e =>
      refine Or.inr ⟨e, rfl, ?_⟩
      unfold getPaperByIdentifierImpl
      rw [h]
  · intro hmem
    rw [List.mem_cons, List.mem_cons, List.mem_cons, List.mem_singleton] at hmem
    push_neg at hmem
    obtain ⟨h1, h2, h3, h4⟩ := hmem
    unfold getPaperByIdentifierImpl dispatch
    rw [if_neg h1, if_neg h2, if_neg h3, if_neg h4]

/-- Witness for C2: a supplied unrecognized `id_type = "weird"` yields the
structured unknown-type error object, not a propagated failure. -/
theorem get_paper_by_identifier_no_exception_witness :
    getPaperByIdentifierImpl cEnvC2 (strL "X") (some (strL "weird")) =
      errorObj (strL "Unknown identifier type: " ++ strL "weird") (strL "X") (strL "weird") :=
  (get_paper_by_identifier_no_exception cEnvC2 (strL "X") (some (strL "weird"))).2 (by decide)

/-- C9: under the idealised clock, two back-to-back Semantic Scholar calls
are separated by at least 1 second: `_respect_rate_limit` records the
post-sleep time as `_last_call`, and a second call entering at any time at or
after the first one's release is itself released no earlier than the first
release plus `1 / RATE_LIMIT = 1` second (sleeping for the remainder of the
interval when needed). -/
theorem rate_limiter_min_spacing (t1 last0 t2 : ℚ)
    (h : (respectRateLimit t1 last0).1 ≤ t2) :
    (respectRateLimit t1 last0).2 = (respectRateLimit t1 last0).1 ∧
    (respectRateLimit t1 last0).1 + 1 ≤ (respectRateLimit t2 (respectRateLimit t1 last0).2).1 := by
  have hsame : ∀ t l : ℚ, (respectRateLimit t l).2 = (respectRateLimit t l).1 := by
    intro t l
    unfold respectRateLimit
    split <;> rfl
  have hstep : ∀ t l : ℚ, l + 1 ≤ (respectRateLimit t l).1 := by
    intro t l
    unfold respectRateLimit RATE_LIMIT
    split <;> rename_i hc <;> norm_num at hc ⊢ <;> linarith
  refine ⟨hsame t1 last0, ?_⟩
  rw [hsame t1 last0]
  exact hstep t2 _

/-- Witness for C9: first call at time 0 with a stale `_last_call = -5`
releases immediately at 0; a second call at time 1 is released at 1 = 0 + 1. -/
theorem rate_limiter_min_spacing_witness :
    (respectRateLimit 0 (-5)).2 = (respectRateLimit 0 (-5)).1 ∧
    (respectRateLimit 0 (-5)).1 + 1 ≤ (respectRateLimit 1 (respectRateLimit 0 (-5)).2).1 :=
  rate_limiter_min_spacing 0 (-5) 1 (by norm_num [respectRateLimit, RATE_LIMIT])

/-- C7: every summary returned by `pubmed_summary` carries an
`abstract_snippet` of length at most 203: the article's abstract truncated to
its first 200 characters plus `"..."` when it exceeds 200 characters, and the
abstract unchanged (no suffix) otherwise. -/
theorem pubmed_summary_snippet_bounded (env : Env) (pmids : List Str)
    (out : List (List (Str × Val))) (h : pubmedSummaryImpl env pmids = .ok out) :
    ∀ s ∈ out, ∃ ab : Str,
      lookupKeyG s (strL "abstract_snippet") = some (Val.str (abstractSnippet ab)) ∧
      (abstractSnippet ab).length ≤ 203 ∧
      (200 < ab.length → abstractSnippet ab = ab.take 200 ++ strL "...") ∧
      (ab.length ≤ 200 → abstractSnippet ab = ab) := by
  have hlookup : ∀ (pk : Option Str) (a : PubmedArticle),
      lookupKeyG (summaryRecord pk a) (strL "abstract_snippet") =
        some (Val.str (abstractSnippet a.abstract)) := fun pk a => rfl
  have hsnip : ∀ ab : Str, (abstractSnippet ab).length ≤ 203 ∧
      (200 < ab.length → abstractSnippet ab = ab.take 200 ++ strL "...") ∧
      (ab.length ≤ 200 → abstractSnippet ab = ab) := by
    intro ab
    unfold abstractSnippet
    by_cases hc : 200 < ab.length
    · rw [if_pos hc]
      have h3 : (strL "...").length = 3 := rfl
      refine ⟨?_, fun _ => rfl, fun hle => absurd hc (by omega)⟩
      rw [List.length_append, List.length_take, h3]
      omega
    · rw [if_neg hc]
      exact ⟨by omega, fun hgt => absurd hgt hc, fun _ => rfl⟩
  intro s hs
  unfold pubmedSummaryImpl at h
  cases hfetch : pubmedFetchImpl env pmids with
  | error e =>
    rw [hfetch] at h
    exact absurd h (by simp)
  | ok articles =>
    rw [hfetch] at h
    have hout : articles.map (fun pa => summaryRecord pa.1 pa.2) = out := by
      injection h
    rw [← hout] at hs
    obtain ⟨pa, _, rfl⟩ := List.mem_map.mp hs
    exact ⟨pa.2.abstract, hlookup pa.1 pa.2, hsnip pa.2.abstract⟩

/-- Witness for C7: the summary produced for `cRoot7`'s article carries its
short abstract unchanged as the snippet, within the 203-character bound. -/
theorem pubmed_summary_snippet_bounded_witness :
    ∃ ab : Str,
      lookupKeyG (summaryRecord (some (strL "1")) cArticle7) (strL "abstract_snippet") =
        some (Val.str (abstractSnippet ab)) ∧
      (abstractSnippet ab).length ≤ 203 ∧
      (200 < ab.length → abstractSnippet ab = ab.take 200 ++ strL "...") ∧
      (ab.length ≤ 200 → abstractSnippet ab = ab) :=
  pubmed_summary_snippet_bounded cEnvC7 [strL "1"]
    [summaryRecord (some (strL "1")) cArticle7] rfl
    (summaryRecord (some (strL "1")) cArticle7) (by simp)

/-- C4: on a doi-classified identifier for which the CrossRef lookup succeeds
and the secondary Semantic Scholar lookup fails for any reason,
`get_paper_by_identifier` returns exactly the CrossRef fields spread behind
`source = "crossref"`; the result carries no `semantic_scholar` key and no
`error` key (whenever the CrossRef record itself does not carry those keys),
and does not depend on the secondary failure's message. -/
theorem doi_secondary_failure_swallowed (env : Env) (identifier : Str)
    (idType? : Option Str) (hdoi : resolveIdType identifier idType? = strL "doi")
    (cr : List (Str × Val)) (hcr : env.crossrefDoiLookup identifier = .ok cr)
    (e : Str) (hs2 : env.s2PaperDetails identifier = .error e) :
    getPaperByIdentifierImpl env identifier idType? =
      dictUnion [(strL "source", Val.str (strL "crossref"))] cr ∧
    (lookupKeyG cr (strL "source") = none →
      lookupKeyG (getPaperByIdentifierImpl env identifier idType?) (strL "source") =
        some (Val.str (strL "crossref"))) ∧
    (lookupKeyG cr (strL "semantic_scholar") = none →
      lookupKeyG (getPaperByIdentifierImpl env identifier idType?)
        (strL "semantic_scholar") = none) ∧
    (lookupKeyG cr (strL "error") = none →
      lookupKeyG (getPaperByIdentifierImpl env identifier idType?) (strL "error") = none) := by
  have hres : getPaperByIdentifierImpl env identifier idType? =
      dictUnion [(strL "source", Val.str (strL "crossref"))] cr := by
    unfold getPaperByIdentifierImpl dispatch
    rw [hdoi, hcr, hs2]
    exact rfl
  refine ⟨hres, ?_, ?_, ?_⟩
  · intro hnone
    rw [hres, lookup_dictUnion_of_notin _ _ _ hnone]
    rfl
  · intro hnone
    rw [hres, lookup_dictUnion_of_notin _ _ _ hnone]
    rfl
  · intro hnone
    rw [hres, lookup_dictUnion_of_notin _ _ _ hnone]
    rfl

/-- Witness for C4: in `cEnvC4` the DOI `"10.1/x"` auto-classifies as `doi`,
CrossRef returns a record, Semantic Scholar fails, and the result is the
spread CrossRef record with `source = "crossref"` and no `semantic_scholar`
key. -/
theorem doi_secondary_failure_swallowed_witness :
    getPaperByIdentifierImpl cEnvC4 (strL "10.1/x") none =
      dictUnion [(strL "source", Val.str (strL "crossref"))]
        [(strL "title", Val.str (strL "T"))] ∧
    lookupKeyG (getPaperByIdentifierImpl cEnvC4 (strL "10.1/x") none)
      (strL "semantic_scholar") = none ∧
    lookupKeyG (getPaperByIdentifierImpl cEnvC4 (strL "10.1/x") none)
      (strL "source") = some (Val.str (strL "crossref")) := by
  have h := doi_secondary_failure_swallowed cEnvC4 (strL "10.1/x") none (by decide)
    [(strL "title", Val.str (strL "T"))] rfl (strL "down") rfl
  exact ⟨h.1, h.2.2.1 rfl, h.2.1 rfl⟩

/-- C5: on a doi-classified identifier for which both the CrossRef lookup and
the secondary Semantic Scholar lookup succeed, `get_paper_by_identifier`
returns the merged object with `source = "crossref+semantic_scholar"`, the
CrossRef result under the `crossref` key and the Semantic Scholar result
under the `semantic_scholar` key. -/
theorem doi_merge_both_sources (env : Env) (identifier : Str) (idType? : Option Str)
    (hdoi : resolveIdType identifier idType? = strL "doi")
    (cr : List (Str × Val)) (hcr : env.crossrefDoiLookup identifier = .ok cr)
    (s2 : List (Str × Val)) (hs2 : env.s2PaperDetails identifier = .ok s2) :
    getPaperByIdentifierImpl env identifier idType? =
      [(strL "source", Val.str (strL "crossref+semantic_scholar")),
       (strL "crossref", Val.obj cr),
       (strL "semantic_scholar", Val.obj s2)] ∧
    lookupKeyG (getPaperByIdentifierImpl env identifier idType?) (strL "source") =
      some (Val.str (strL "crossref+semantic_scholar")) ∧
    lookupKeyG (getPaperByIdentifierImpl env identifier idType?) (strL "crossref") =
      some (Val.obj cr) ∧
    lookupKeyG (getPaperByIdentifierImpl env identifier idType?) (strL "semantic_scholar") =
      some (Val.obj s2) := by
  have hres : getPaperByIdentifierImpl env identifier idType? =
      [(strL "source", Val.str (strL "crossref+semantic_scholar")),
       (strL "crossref", Val.obj cr),
       (strL "semantic_scholar", Val.obj s2)] := by
    unfold getPaperByIdentifierImpl dispatch
    rw [hdoi, hcr, hs2]
    exact rfl
  refine ⟨hres, ?_, ?_, ?_⟩ <;> rw [hres] <;> rfl

/-- Witness for C5: in `cEnvC5` the DOI `"10.1038/s41586-020-2649-2"`
auto-classifies as `doi`, both lookups succeed, and the result is the merged
two-source object. -/
theorem doi_merge_both_sources_witness :
    getPaperByIdentifierImpl cEnvC5 (strL "10.1038/s41586-020-2649-2") none =
      [(strL "source", Val.str (strL "crossref+semantic_scholar")),
       (strL "crossref", Val.obj [(strL "title", Val.str (strL "T"))]),
       (strL "semantic_scholar", Val.obj [(strL "title", Val.str (strL "S"))])] ∧
    lookupKeyG (getPaperByIdentifierImpl cEnvC5 (strL "10.1038/s41586-020-2649-2") none)
      (strL "source") = some (Val.str (strL "crossref+semantic_scholar")) := by
  have h := doi_merge_both_sources cEnvC5 (strL "10.1038/s41586-020-2649-2") none
    (by decide) [(strL "title", Val.str (strL "T"))] rfl
    [(strL "title", Val.str (strL "S"))] rfl
  exact ⟨h.1, h.2.1⟩

/-- C3: `multi_database_search` queries each requested provider in isolation:
whatever the other providers do, a requested provider `p` (one of the four
supported ones) contributes exactly one key to the returned mapping — `p`
bound to the provider call's value (an empty list when the call succeeded
with zero matches) on success, or `p_error` bound to the failure message on
failure — and a failure of `p` leaves every other provider's entry untouched
(its entry is determined by its own call alone). -/
theorem multi_database_search_isolated (env : Env) (query : Str)
    (databases : Option (List Str)) (maxPerDb : Nat) (p : Str)
    (hp : p ∈ defaultDatabases)
    (hreq : (databases.getD defaultDatabases).contains p = true) :
    (∀ v, providerCall env query maxPerDb p = .ok v →
       lookupKeyG (multiDatabaseSearchImpl env query databases maxPerDb) p = some v ∧
       lookupKeyG (multiDatabaseSearchImpl env query databases maxPerDb)
         (p ++ strL "_error") = none) ∧
    (∀ e, providerCall env query maxPerDb p = .error e →
       lookupKeyG (multiDatabaseSearchImpl env query databases maxPerDb)
         (p ++ strL "_error") = some (Val.str e) ∧
       lookupKeyG (multiDatabaseSearchImpl env query databases maxPerDb) p = none) := by
  simp only [multiDatabaseSearchImpl]
  fin_cases hp
  · rw [hreq]
    constructor
    · intro v hv
      constructor
      · rw [lookup_fanStage_other _ _ _ _ _ (by decide) (by decide),
          lookup_fanStage_other _ _ _ _ _ (by decide) (by decide),
          lookup_fanStage_other _ _ _ _ _ (by decide) (by decide)]
        exact (lookup_fanStage_active_ok _ _ _ _ hv).1
      · rw [lookup_fanStage_other _ _ _ _ _ (by decide) (by decide),
          lookup_fanStage_other _ _ _ _ _ (by decide) (by decide),
          lookup_fanStage_other _ _ _ _ _ (by decide) (by decide),
          (lookup_fanStage_active_ok _ _ _ _ hv).2]
        rfl
    · intro e he
      constructor
      · rw [lookup_fanStage_other _ _ _ _ _ (by decide) (by decide),
          lookup_fanStage_other _ _ _ _ _ (by decide) (by decide),
          lookup_fanStage_other _ _ _ _ _ (by decide) (by decide)]
        exact (lookup_fanStage_active_error _ _ _ _ he).1
      · rw [lookup_fanStage_other _ _ _ _ _ (by decide) (by decide),
          lookup_fanStage_other _ _ _ _ _ (by decide) (by decide),
          lookup_fanStage_other _ _ _ _ _ (by decide) (by decide),
          (lookup_fanStage_active_error _ _ _ _ he).2]
        rfl
  · rw [hreq]
    constructor
    · intro v hv
      constructor
      · rw [lookup_fanStage_other _ _ _ _ _ (by decide) (by decide),
          lookup_fanStage_other _ _ _ _ _ (by decide) (by decide)]
        exact (lookup_fanStage_active_ok _ _ _ _ hv).1
      · rw [lookup_fanStage_other _ _ _ _ _ (by decide) (by decide),
          lookup_fanStage_other _ _ _ _ _ (by decide) (by decide),
          (lookup_fanStage_active_ok _ _ _ _ hv).2,
          lookup_fanStage_other _ _ _ _ _ (by decide) (by decide)]
        rfl
    · intro e he
      constructor
      · rw [lookup_fanStage_other _ _ _ _ _ (by decide) (by decide),
          lookup_fanStage_other _ _ _ _ _ (by decide) (by decide)]
        exact (lookup_fanStage_active_error _ _ _ _ he).1
      · rw [lookup_fanStage_other _ _ _ _ _ (by decide) (by decide),
          lookup_fanStage_other _ _ _ _ _ (by decide) (by decide),
          (lookup_fanStage_active_error _ _ _ _ he).2,
          lookup_fanStage_other _ _ _ _ _ (by decide) (by decide)]
        rfl
  · rw [hreq]
    constructor
    · intro v hv
      constructor
      · rw [lookup_fanStage_other _ _ _ _ _ (by decide) (by decide)]
        exact (lookup_fanStage_active_ok _ _ _ _ hv).1
      · rw [lookup_fanStage_other _ _ _ _ _ (by decide) (by decide),
          (lookup_fanStage_active_ok _ _ _ _ hv).2,
          lookup_fanStage_other _ _ _ _ _ (by decide) (by decide),
          lookup_fanStage_other _ _ _ _ _ (by decide) (by decide)]
        rfl
    · intro e he
      constructor
      · rw [lookup_fanStage_other _ _ _ _ _ (by decide) (by decide)]
        exact (lookup_fanStage_active_error _ _ _ _ he).1
      · rw [lookup_fanStage_other _ _ _ _ _ (by decide) (by decide),
          (lookup_fanStage_active_error _ _ _ _ he).2,
          lookup_fanStage_other _ _ _ _ _ (by decide) (by decide),
          lookup_fanStage_other _ _ _ _ _ (by decide) (by decide)]
        rfl
  · rw [hreq]
    constructor
    · intro v hv
      constructor
      · exact (lookup_fanStage_active_ok _ _ _ _ hv).1
      · rw [(lookup_fanStage_active_ok _ _ _ _ hv).2,
          lookup_fanStage_other _ _ _ _ _ (by decide) (by decide),
          lookup_fanStage_other _ _ _ _ _ (by decide) (by decide),
          lookup_fanStage_other _ _ _ _ _ (by decide) (by decide)]
        rfl
    · intro e he
      constructor
      · exact (lookup_fanStage_active_error _ _ _ _ he).1
      · rw [(lookup_fanStage_active_error _ _ _ _ he).2,
          lookup_fanStage_other _ _ _ _ _ (by decide) (by decide),
          lookup_fanStage_other _ _ _ _ _ (by decide) (by decide),
          lookup_fanStage_other _ _ _ _ _ (by decide) (by decide)]
        rfl

/-- Witness for C3: with the default provider set in `cEnvC3`, the failing
Semantic Scholar provider contributes only `semantic_scholar_error` bound to
its message, and the arXiv provider — succeeding with zero matches —
contributes only `arxiv` bound to the empty list. -/
theorem multi_database_search_isolated_witness :
    (lookupKeyG (multiDatabaseSearchImpl cEnvC3 (strL "q") none 10)
        (strL "semantic_scholar" ++ strL "_error") = some (Val.str (strL "timeout")) ∧
     lookupKeyG (multiDatabaseSearchImpl cEnvC3 (strL "q") none 10)
        (strL "semantic_scholar") = none) ∧
    (lookupKeyG (multiDatabaseSearchImpl cEnvC3 (strL "q") none 10)
        (strL "arxiv") = some (Val.vlist []) ∧
     lookupKeyG (multiDatabaseSearchImpl cEnvC3 (strL "q") none 10)
        (strL "arxiv" ++ strL "_error") = none) :=
  ⟨(multi_database_search_isolated cEnvC3 (strL "q") none 10 (strL "semantic_scholar")
      (by decide) (by decide)).2 (strL "timeout") rfl,
   (multi_database_search_isolated cEnvC3 (strL "q") none 10 (strL "arxiv")
      (by decide) (by decide)).1 (Val.vlist []) rfl⟩

/-- C6 counterexample: `pubmed_search` on `cEnvC6` produces a record with the
single author name `"Ann et al."`; its derived `author_list` is exactly that
name, which does end with `" et al."` although the record has at most 3
authors — refuting the claim that for records with 3 or fewer authors the
`author_list` never ends with `" et al."`. -/
theorem author_list_etal_counterexample :
    pubmedSearchImpl cEnvC6 (strL "q") 20 true =
      .ok (.records [searchRecord (strL "1") cArticle6]) ∧
    cArticle6.authors.length ≤ 3 ∧
    lookupKeyG (searchRecord (strL "1") cArticle6) (strL "author_list") =
      some (Val.str (strL "Ann et al.")) ∧
    strL " et al." <:+ strL "Ann et al." :=
  ⟨rfl, by decide, rfl, ⟨strL "Ann", rfl⟩⟩

/-- C6 (amended): the derived `author_list` is the first 3 author names
joined by `", "` with `" et al."` appended iff the record has more than 3
authors; hence for more than 3 authors it always ends with `" et al."`, and
for 3 or fewer authors it ends with `" et al."` exactly when the joined
names themselves do (e.g. an author name ending in `" et al."`) — otherwise
it does not. -/
theorem author_list_display_amended (authors : List Str) :
    authorListDisplay authors =
      List.intercalate (strL ", ") (authors.take 3) ++
        (if 3 < authors.length then strL " et al." else strL "") ∧
    (3 < authors.length → strL " et al." <:+ authorListDisplay authors) ∧
    (authors.length ≤ 3 →
      (strL " et al." <:+ authorListDisplay authors ↔
       strL " et al." <:+ List.intercalate (strL ", ") (authors.take 3))) := by
  refine ⟨rfl, ?_, ?_⟩
  · intro h
    unfold authorListDisplay
    rw [if_pos h]
    exact List.suffix_append _ _
  · intro h
    unfold authorListDisplay
    have h0 : strL "" = ([] : Str) := rfl
    rw [if_neg (by omega), h0, List.append_nil]

/-- Witness for C6 (amended): a 4-author record's `author_list` ends with
`" et al."`, and a 1-author record's `author_list` ends with `" et al."`
exactly when the joined names do. -/
theorem author_list_display_amended_witness :
    strL " et al." <:+ authorListDisplay [strL "A", strL "B", strL "C", strL "D"] ∧
    (strL " et al." <:+ authorListDisplay [strL "A"] ↔
      strL " et al." <:+ List.intercalate (strL ", ") ([strL "A"].take 3)) :=
  ⟨(author_list_display_amended [strL "A", strL "B", strL "C", strL "D"]).2.1 (by decide),
   (author_list_display_amended [strL "A"]).2.2 (by decide)⟩

/-- C8: the PubMed detail fetch never fails on a missing field — the parse of
an article element is a total function whose record always carries all eight
keys in order, and an article with no `Abstract/AbstractText` element parses
to a record whose `abstract` field is the empty string. -/
theorem pubmed_fetch_missing_abstract_defaults (a : XmlTree) (pk : Option Str)
    (rec : PubmedArticle) (hparse : parseArticle a = some (pk, rec))
    (habs : findDescChild a (strL "Abstract") (strL "AbstractText") = none) :
    rec.abstract = strL "" ∧
    (articleToDict rec).map Prod.fst =
      [strL "pmid", strL "title", strL "abstract", strL "authors",
       strL "journal", strL "year", strL "doi", strL "keywords"] := by
  refine ⟨?_, rfl⟩
  unfold parseArticle at hparse
  cases hfind : findDesc a (strL "PMID") with
  | none =>
    rw [hfind] at hparse
    exact absurd hparse (by simp)
  | some pmidElem =>
    rw [hfind, habs] at hparse
    simp only [Option.some.injEq, Prod.mk.injEq] at hparse
    obtain ⟨_, h2⟩ := hparse
    rw [← h2]
    exact rfl

/-- Witness for C8: `cTree8` has a PMID and a title but no
`Abstract/AbstractText`; its parsed record has the empty abstract and all
eight keys. -/
theorem pubmed_fetch_missing_abstract_defaults_witness :
    cRec8.abstract = strL "" ∧
    (articleToDict cRec8).map Prod.fst =
      [strL "pmid", strL "title", strL "abstract", strL "authors",
       strL "journal", strL "year", strL "doi", strL "keywords"] :=
  pubmed_fetch_missing_abstract_defaults cTree8 (some (strL "7")) cRec8 rfl rfl

/-- C10: `pubmed_fetch` issues a single batched efetch request for the
comma-joined first 10 PMIDs only; provided the endpoint answers with articles
among the requested PMIDs, every key of the returned mapping is one of the
first 10 input PMIDs — and consequently every enriched record produced by
`pubmed_search` with `return_details = true` carries a `pmid` among the first
10 PMIDs that esearch matched, regardless of how many were supplied or
matched. -/
theorem pubmed_fetch_truncates_to_ten (env : Env) :
    (∀ pmids root out,
       env.efetch (List.intercalate (strL ",") (pmids.take 10)) = .ok root →
       (∀ pk ∈ (parseEfetch root).map Prod.fst, ∃ p ∈ pmids.take 10, pk = some p) →
       pubmedFetchImpl env pmids = .ok out →
       ∀ pr ∈ out, ∃ p ∈ pmids.take 10, pr.1 = some p) ∧
    (∀ query maxResults ids root recs,
       env.esearch query maxResults = .ok ids →
       env.efetch (List.intercalate (strL ",") (ids.take 10)) = .ok root →
       (∀ pk ∈ (parseEfetch root).map Prod.fst, ∃ p ∈ ids.take 10, pk = some p) →
       pubmedSearchImpl env query maxResults true = .ok (.records recs) →
       ∀ r ∈ recs, ∃ p ∈ ids.take 10,
         lookupKeyG r (strL "pmid") = some (Val.str p)) := by
  constructor
  · intro pmids root out hroot hfaithful hout
    unfold pubmedFetchImpl at hout
    by_cases hemp : pmids.isEmpty = true
    · rw [if_pos hemp] at hout
      injection hout with h
      intro pr hpr
      rw [← h] at hpr
      simp at hpr
    · rw [if_neg hemp, hroot] at hout
      injection hout with h
      intro pr hpr
      rw [← h] at hpr
      exact hfaithful pr.1 (List.mem_map.mpr ⟨pr, hpr, rfl⟩)
  · intro query maxResults ids root recs hes hroot hfaithful hsr
    unfold pubmedSearchImpl at hsr
    simp only [hes, Bool.not_true, Bool.false_or] at hsr
    by_cases hemp : ids.isEmpty = true
    · rw [if_pos hemp] at hsr
      exact absurd hsr (by simp)
    · rw [if_neg hemp] at hsr
      cases hfetch : pubmedFetchImpl env ids with
      | error e =>
        rw [hfetch] at hsr
        exact absurd hsr (by simp)
      | ok articlesDict =>
        rw [hfetch] at hsr
        have hdict : articlesDict = parseEfetch root := by
          unfold pubmedFetchImpl at hfetch
          rw [if_neg hemp, hroot] at hfetch
          injection hfetch with h
          exact h.symm
        simp only [Except.ok.injEq, PubmedSearchOut.records.injEq] at hsr
        intro r hr
        rw [← hsr] at hr
        obtain ⟨pmid, hpm, hf⟩ := List.mem_filterMap.mp hr
        cases hl : lookupKeyG articlesDict (some pmid) with
        | none =>
          rw [hl] at hf
          exact absurd hf (by simp)
        | some article =>
          rw [hl] at hf
          simp only [Option.some.injEq] at hf
          have hkey := lookupKeyG_mem_keys _ _ _ hl
          rw [hdict] at hkey
          obtain ⟨p, hp10, hpe⟩ := hfaithful (some pmid) hkey
          injection hpe with hpp
          subst hpp
          exact ⟨pmid, hp10, by rw [← hf]; exact rfl⟩

/-- Witness for C10: `cEnv10`'s esearch matches twelve PMIDs; the record
produced from its efetch response carries PMID `"1"`, which is among the
first ten. -/
theorem pubmed_fetch_truncates_to_ten_witness :
    ∃ p ∈ cIds10.take 10,
      lookupKeyG (searchRecord (strL "1") cArticle10) (strL "pmid") =
        some (Val.str p) :=
  (pubmed_fetch_truncates_to_ten cEnv10).2 (strL "q") 20 cIds10 cRoot10
    [searchRecord (strL "1") cArticle10] rfl rfl (by decide) rfl
    (searchRecord (strL "1") cArticle10) (by simp)

end ResearchMCP
